import Mathlib

/-!
Verification of the HSLproxy departure proxy (src/app/main.py).

The embedding models the `/departures` handler pipeline:
`departure_proxy` → `get_departures` (upstream HTTP call) → `parse_json` →
`single_departure` / `get_timestamps`, together with the `Departure` model
and its (buggy) `__lt__` comparison.

Modelling conventions:
* Python `datetime` values are represented by their Unix timestamp in
  seconds (`Int`); `datetime.utcfromtimestamp(t)` is the identity on that
  representation, so "converted to UTC with no extra offset" is literal.
* A JSON dict key that may be absent is an `Option` field; subscripting a
  missing key (Python `KeyError`) is `PyError.keyError`.
* `fastapi.HTTPException(status_code, detail)` is
  `PyError.httpException status detail`.
* The outbound aiohttp call is abstracted by an `Upstream` value: a
  connection failure raising `aiohttp.ClientConnectorError` (DNS failure,
  refused connection), a timeout raising `asyncio.TimeoutError` /
  `aiohttp.ServerTimeoutError` (which is not a `ClientConnectorError` and
  escapes the code's `except` clause), or a response with a status code
  and a JSON body.
-/

namespace HSLproxy

/-- Exceptions that the Python code can raise on the paths we model:
`KeyError` from dict subscripting, `ValueError` from `islice` with a
negative stop argument, `asyncio.TimeoutError` from an aiohttp timeout
(caught nowhere in the handler, so it propagates as an opaque fault),
and `fastapi.HTTPException`. -/
inductive PyError where
  | keyError
  | valueError
  | timeoutError
  | httpException (statusCode : Int) (detail : String)
deriving DecidableEq, Repr

/-- Embeds the JSON object at `trip.route` in the upstream payload; the
`shortName` key may be absent. -/
structure RawRoute where
  shortName : Option String
deriving DecidableEq, Repr

/-- Embeds the JSON object at `trip` in an upstream stoptime entry. -/
structure RawTrip where
  route : Option RawRoute
deriving DecidableEq, Repr

/-- Embeds the JSON object at `stop` in an upstream stoptime entry:
`{name, code}`, either key possibly absent. -/
structure RawStopObj where
  name : Option String
  code : Option String
deriving DecidableEq, Repr

/-- Embeds one element of `stoptimesWithoutPatterns` in the upstream JSON.
Every key the code subscripts may be absent (`none`); `headsign` present
with JSON `null` is `some none`. -/
structure RawDeparture where
  stop : Option RawStopObj
  serviceDay : Option Int
  scheduledDeparture : Option Int
  realtimeDeparture : Option Int
  trip : Option RawTrip
  headsign : Option (Option String)
deriving DecidableEq, Repr

/-- Embeds one element of the upstream `data.stops` list. -/
structure RawStopEntry where
  stoptimesWithoutPatterns : Option (List RawDeparture)
deriving DecidableEq, Repr

/-- Embeds the JSON object at `data` in the upstream payload. -/
structure RawData where
  stops : Option (List RawStopEntry)
deriving DecidableEq, Repr

/-- Embeds the whole upstream JSON payload (`raw_data` in the code). -/
structure RawPayload where
  data : Option RawData
deriving DecidableEq, Repr

/-- Python dict subscripting `d[key]`: raises `KeyError` when the key is
absent. -/
def pyGetItem (o : Option α) : Except PyError α :=
  match o with
  | none => .error .keyError
  | some v => .ok v

/-- Embeds the pydantic model `Departure` of src/app/main.py. `datetime`
fields are Unix seconds. -/
structure Departure where
  stop : String
  line : String
  destination : Option String
  scheduled : Int
  estimated : Option Int
deriving DecidableEq, Repr

/-- Embeds `Departure.best_time`:
`self.scheduled if self.estimated is None else self.estimated`. -/
def Departure.best_time (d : Departure) : Int :=
  match d.estimated with
  | none => d.scheduled
  | some t => t

/-- Embeds the return value of `Departure.__lt__`. Its Python body is the
bare expression statement `self.best_time() < other.best_time()` with no
`return`, so the method always returns `None`; we embed the returned value
(`none`), not the discarded comparison. -/
def Departure.ltReturn (_self _other : Departure) : Option Bool :=
  none

/-- Python truthiness of an `Option Bool` (`None` is falsy), as applied by
`sorted` to the result of `__lt__`. -/
def truthy : Option Bool → Bool
  | none => false
  | some b => b

/-- The effective "is less than" test `sorted` sees for two departures:
the truthiness of what `Departure.__lt__` returns. -/
def Departure.lt (a b : Departure) : Bool :=
  truthy (Departure.ltReturn a b)

/-- Stable comparison sort over a Python-style `__lt__` test: an element
`x` moves past `y` only when `lt y x` is true. Python's `sorted` is a
stable comparison sort with exactly this contract, and any such sort is
the identity when `lt` is constantly false, as `Departure.lt` is. -/
def insertLt (lt : α → α → Bool) (x : α) : List α → List α
  | [] => [x]
  | y :: ys => if lt y x then y :: insertLt lt x ys else x :: y :: ys

/-- Embeds Python `sorted(xs)` under the list elements' `__lt__`. -/
def pySorted (lt : α → α → Bool) : List α → List α
  | [] => []
  | x :: xs => insertLt lt x (pySorted lt xs)

/-- Embeds `list(islice(xs, n))`: `islice` raises `ValueError` when its
stop argument is negative, otherwise yields the first `n` elements. -/
def pyIslice (n : Int) (xs : List α) : Except PyError (List α) :=
  if n < 0 then .error .valueError
  else .ok (xs.take n.toNat)

/-- Embeds the pydantic model `DepartureList`. -/
structure DepartureList where
  departures : List Departure
  timestamp : Option Int
deriving DecidableEq, Repr

/-- Embeds `get_timestamps`: reads `serviceDay`, `scheduledDeparture` and
`realtimeDeparture`, and returns
`(utcfromtimestamp(serviceDay + scheduledDeparture),
  utcfromtimestamp(serviceDay + realtimeDeparture))`;
`utcfromtimestamp` is the identity on the Unix-seconds representation. -/
def get_timestamps (departure : RawDeparture) : Except PyError (Int × Int) :=
  match departure.serviceDay with
  | none => .error .keyError
  | some day_start_unix =>
  match departure.scheduledDeparture with
  | none => .error .keyError
  | some scheduled_time =>
  match departure.realtimeDeparture with
  | none => .error .keyError
  | some real_time =>
    .ok (day_start_unix + scheduled_time, day_start_unix + real_time)

/-- Embeds `single_departure`: calls `get_timestamps`, reads
`stop.code`, `stop.name`, `trip.route.shortName` and `headsign`, and
builds the `Departure`, with `stop` the code and name joined by one
space and `estimated` always set from the realtime timestamp. -/
def single_departure (data : RawDeparture) : Except PyError Departure :=
  match get_timestamps data with
  | .error e => .error e
  | .ok (scheduled, estimate) =>
  match data.stop with
  | none => .error .keyError
  | some stopObj =>
  match stopObj.code with
  | none => .error .keyError
  | some stop_code =>
  match stopObj.name with
  | none => .error .keyError
  | some stop_name =>
  match data.trip with
  | none => .error .keyError
  | some trip =>
  match trip.route with
  | none => .error .keyError
  | some route =>
  match route.shortName with
  | none => .error .keyError
  | some line =>
  match data.headsign with
  | none => .error .keyError
  | some headsign =>
    .ok { stop := stop_code ++ " " ++ stop_name
        , line := line
        , destination := headsign
        , scheduled := scheduled
        , estimated := some estimate }

/-- Maps `single_departure`-like normalization over a list, stopping at
the first exception, as the Python list comprehension does. -/
def mapExcept (f : α → Except PyError β) : List α → Except PyError (List β)
  | [] => .ok []
  | x :: xs =>
    match f x with
    | .error e => .error e
    | .ok y =>
      match mapExcept f xs with
      | .error e => .error e
      | .ok ys => .ok (y :: ys)

/-- Embeds the accumulation loop of `parse_json`:
`all_departures += [single_departure(d) for d in stop["stoptimesWithoutPatterns"]]`
over the found stops, left to right, first exception aborting. -/
def collect_departures : List RawStopEntry → Except PyError (List Departure)
  | [] => .ok []
  | st :: rest =>
    match st.stoptimesWithoutPatterns with
    | none => .error .keyError
    | some sts =>
      match mapExcept single_departure sts with
      | .error e => .error e
      | .ok ds =>
        match collect_departures rest with
        | .error e => .error e
        | .ok rest_ds => .ok (ds ++ rest_ds)

/-- Embeds `parse_json`: reads `data.stops`, raises HTTP 404 when the
stop list is empty, normalizes every departure of every stop, then
`list(islice(sorted(all_departures), n))`, and returns the
`DepartureList` stamped with `datetime.utcnow()` (the parameter `now`). -/
def parse_json (raw_data : RawPayload) (n : Int) (now : Int) :
    Except PyError DepartureList :=
  match raw_data.data with
  | none => .error .keyError
  | some dd =>
  match dd.stops with
  | none => .error .keyError
  | some found_stops =>
  if found_stops.length = 0 then
    .error (.httpException 404 "No stops matching the query were found.")
  else
    match collect_departures found_stops with
    | .error e => .error e
    | .ok all_departures =>
      match pyIslice n (pySorted Departure.lt all_departures) with
      | .error e => .error e
      | .ok departures => .ok { departures := departures, timestamp := some now }

/-- Abstraction of the outbound aiohttp POST in `get_departures`: a
connection failure raising `aiohttp.ClientConnectorError` (DNS failure,
refused connection), a timeout raising `asyncio.TimeoutError` /
`aiohttp.ServerTimeoutError` (a `ServerConnectionError`, not a
`ClientConnectorError`), or an HTTP response carrying a status code and
a JSON body. -/
inductive Upstream where
  | connectorError
  | timeoutError
  | response (status : Int) (body : RawPayload)
deriving DecidableEq, Repr

/-- Embeds `get_departures`: on status 200 returns the JSON body; on any
other status raises HTTP 502 with the status code in the detail; on a
`ClientConnectorError` raises HTTP 500. A timeout is NOT caught by the
`except aiohttp.ClientConnectorError` clause, so it propagates out of
`get_departures` unchanged as an opaque `asyncio.TimeoutError`. -/
def get_departures (upstream : Upstream) : Except PyError RawPayload :=
  match upstream with
  | .connectorError =>
      .error (.httpException 500 "Unexpected error when fetching data from HSL.")
  | .timeoutError => .error .timeoutError
  | .response status body =>
      if status = 200 then .ok body
      else .error (.httpException 502
        ("Request to HSL API failed with code " ++ toString status ++ "."))

/-- Embeds the `/departures` handler `departure_proxy`: fetches from
upstream, then parses; an `HTTPException` from parsing is re-raised
as-is, any other exception is downgraded to HTTP 500
"Received response from HSL API but failed to parse it.". -/
def departure_proxy (upstream : Upstream) (n : Int) (now : Int) :
    Except PyError DepartureList :=
  match get_departures upstream with
  | .error e => .error e
  | .ok raw_data =>
    match parse_json raw_data n now with
    | .ok result => .ok result
    | .error (.httpException s d) => .error (.httpException s d)
    | .error _ =>
        .error (.httpException 500 "Received response from HSL API but failed to parse it.")

/-- Embeds the FastAPI default `n: int = 5`: a request with `n` absent. -/
def departure_proxy_default_n (upstream : Upstream) (now : Int) :
    Except PyError DepartureList :=
  departure_proxy upstream 5 now

/-- Ascending check on a list of Int timestamps: every adjacent pair is
ordered. -/
def isAscending : List Int → Bool
  | [] => true
  | [_] => true
  | a :: b :: rest => decide (a ≤ b) && isAscending (b :: rest)

/-! ### Concrete inputs used by the claim theorems and witnesses -/

/-- Stoptime entry with serviceDay 1000000000, scheduledDeparture 50,
realtimeDeparture 200 (effective time 1000000200). -/
def entry_C1a : RawDeparture :=
  ⟨some ⟨some "Malmin asema", some "H3030"⟩, some 1000000000, some 50, some 200,
   some ⟨some ⟨some "550"⟩⟩, some (some "Keskusta")⟩

/-- Stoptime entry with serviceDay 1000000000, scheduledDeparture 100,
realtimeDeparture 120 (effective time 1000000120). -/
def entry_C1b : RawDeparture :=
  ⟨some ⟨some "Malmin asema", some "H3030"⟩, some 1000000000, some 100, some 120,
   some ⟨some ⟨some "554"⟩⟩, some (some "Itäkeskus")⟩

/-- One-stop payload whose stoptimes arrive in descending effective-time
order, exposing the broken sort. -/
def payload_C1 : RawPayload := ⟨some ⟨some [⟨some [entry_C1a, entry_C1b]⟩]⟩⟩

/-- First stoptime of the round-trip payload: scheduled 100, realtime 120. -/
def entry_C2a : RawDeparture :=
  ⟨some ⟨some "Malmin asema", some "H3030"⟩, some 1000000000, some 100, some 120,
   some ⟨some ⟨some "550"⟩⟩, some (some "Keskusta")⟩

/-- Second stoptime of the round-trip payload: scheduled 50, realtime 200. -/
def entry_C2b : RawDeparture :=
  ⟨some ⟨some "Malmin asema", some "H3030"⟩, some 1000000000, some 50, some 200,
   some ⟨some ⟨some "554"⟩⟩, some (some "Itäkeskus")⟩

/-- The synthetic round-trip payload: one stop "H3030 Malmin asema" with
exactly the two stoptimes of the claim. -/
def payload_C2 : RawPayload := ⟨some ⟨some [⟨some [entry_C2a, entry_C2b]⟩]⟩⟩

/-- Stoptime entry used by the C3 witness (same shape as `entry_C2a`). -/
def entry_C3a : RawDeparture :=
  ⟨some ⟨some "Malmin asema", some "H3030"⟩, some 1000000000, some 100, some 120,
   some ⟨some ⟨some "550"⟩⟩, some (some "Keskusta")⟩

/-- Second stoptime entry used by the C3 witness. -/
def entry_C3b : RawDeparture :=
  ⟨some ⟨some "Malmin asema", some "H3030"⟩, some 1000000000, some 50, some 200,
   some ⟨some ⟨some "554"⟩⟩, some (some "Itäkeskus")⟩

/-- The stop list of the C3 witness payload. -/
def stops_C3 : List RawStopEntry := [⟨some [entry_C3a, entry_C3b]⟩]

/-- The `data` object of the C3 witness payload. -/
def dd_C3 : RawData := ⟨some stops_C3⟩

/-- One-stop, two-stoptime payload used by the C3 witness. -/
def payload_C3 : RawPayload := ⟨some dd_C3⟩

/-- Normalization of `entry_C3a`. -/
def dep_C3a : Departure :=
  ⟨"H3030 Malmin asema", "550", some "Keskusta", 1000000100, some 1000000120⟩

/-- Normalization of `entry_C3b`. -/
def dep_C3b : Departure :=
  ⟨"H3030 Malmin asema", "554", some "Itäkeskus", 1000000050, some 1000000200⟩

/-- One-stop, one-stoptime payload used for the C5 counterexample and
witness. -/
def payload_C5 : RawPayload :=
  ⟨some ⟨some [⟨some [⟨some ⟨some "Malmin asema", some "H3030"⟩, some 1000000000,
    some 100, some 120, some ⟨some ⟨some "550"⟩⟩, some (some "Keskusta")⟩]⟩]⟩⟩

/-- A fully well-formed stoptime entry. -/
def entry_C8good : RawDeparture :=
  ⟨some ⟨some "Malmin asema", some "H3030"⟩, some 1000000000, some 100, some 120,
   some ⟨some ⟨some "550"⟩⟩, some (some "Keskusta")⟩

/-- A stoptime entry lacking `trip.route.shortName`. -/
def entry_C8bad : RawDeparture :=
  ⟨some ⟨some "Malmin asema", some "H3030"⟩, some 1000000000, some 100, some 120,
   some ⟨some ⟨none⟩⟩, some (some "Keskusta")⟩

/-- Payload with one good and one bad stoptime entry. -/
def payload_C8 : RawPayload := ⟨some ⟨some [⟨some [entry_C8good, entry_C8bad]⟩]⟩⟩

/-- A fully well-formed stoptime entry for the C9 witness. -/
def entry_C9 : RawDeparture :=
  ⟨some ⟨some "Malmin asema", some "H3030"⟩, some 1000000000, some 100, some 120,
   some ⟨some ⟨some "550"⟩⟩, some (some "Keskusta")⟩

/-- A fully well-formed stoptime entry for the C10 witness. -/
def entry_C10 : RawDeparture :=
  ⟨some ⟨some "Malmin asema", some "H3030"⟩, some 1000000000, some 100, some 120,
   some ⟨some ⟨some "550"⟩⟩, some (some "Keskusta")⟩

/-! ### Helper lemmas -/

/-- The effective less-than test seen by `sorted` is constantly false,
because `Departure.__lt__` returns `None`. -/
theorem Departure.lt_eq_false (a b : Departure) : Departure.lt a b = false := rfl

/-- Inserting under the constantly-false comparison puts the element in
front: it never moves past anything. -/
theorem insertLt_lt (x : Departure) (l : List Departure) :
    insertLt Departure.lt x l = x :: l := by
  cases l <;> simp [insertLt, Departure.lt, Departure.ltReturn, truthy]

/-- `sorted` under the `None`-returning `__lt__` is the identity: the
departures come back in their original order. -/
theorem pySorted_lt_id (l : List Departure) : pySorted Departure.lt l = l := by
  induction l with
  | nil => rfl
  | cons x xs ih => simp [pySorted, ih, insertLt_lt]

/-- Every failure of `get_timestamps` is a `KeyError`. -/
theorem get_timestamps_error {d : RawDeparture} {e : PyError}
    (h : get_timestamps d = Except.error e) : e = PyError.keyError := by
  obtain ⟨s, sd, sch, rt, tr, hs⟩ := d
  unfold get_timestamps at h
  cases sd <;> cases sch <;> cases rt <;> simp_all

/-- Every failure of `single_departure` is a `KeyError`. -/
theorem single_departure_error {d : RawDeparture} {e : PyError}
    (h : single_departure d = Except.error e) : e = PyError.keyError := by
  unfold single_departure at h
  repeat' split at h
  all_goals simp_all
  all_goals exact get_timestamps_error (by assumption)

/-- Every failure of mapping `single_departure` over a list is a
`KeyError`. -/
theorem mapExcept_sd_error {l : List RawDeparture} {e : PyError}
    (h : mapExcept single_departure l = Except.error e) : e = PyError.keyError := by
  induction l with
  | nil => simp [mapExcept] at h
  | cons a as ih =>
    simp only [mapExcept] at h
    cases hfa : single_departure a with
    | error e1 =>
      rw [hfa] at h
      simp at h
      exact h ▸ single_departure_error hfa
    | ok y =>
      rw [hfa] at h
      cases hrest : mapExcept single_departure as with
      | error e1 =>
        rw [hrest] at h
        simp at h
        subst h
        exact ih hrest
      | ok ys => rw [hrest] at h; simp at h

/-- Every failure of the accumulation loop is a `KeyError`. -/
theorem collect_departures_error {stops : List RawStopEntry} {e : PyError}
    (h : collect_departures stops = Except.error e) : e = PyError.keyError := by
  induction stops with
  | nil => simp [collect_departures] at h
  | cons st rest ih =>
    simp only [collect_departures] at h
    cases hst : st.stoptimesWithoutPatterns with
    | none => rw [hst] at h; simp at h; exact h.symm
    | some sts =>
      rw [hst] at h
      dsimp only at h
      cases hm : mapExcept single_departure sts with
      | error e1 => rw [hm] at h; simp at h; exact h ▸ mapExcept_sd_error hm
      | ok ds =>
        rw [hm] at h
        dsimp only at h
        cases hr : collect_departures rest with
        | error e1 => rw [hr] at h; simp at h; subst h; exact ih hr
        | ok rds => rw [hr] at h; simp at h

/-- If a monadic map succeeds, every element succeeded. -/
theorem mapExcept_ok_forall {f : α → Except PyError β} {l : List α} {ys : List β}
    (h : mapExcept f l = Except.ok ys) : ∀ x ∈ l, ∃ y, f x = Except.ok y := by
  induction l generalizing ys with
  | nil => intro x hx; cases hx
  | cons a as ih =>
    intro x hx
    simp only [mapExcept] at h
    cases hfa : f a with
    | error e => rw [hfa] at h; simp at h
    | ok y =>
      rw [hfa] at h
      dsimp only at h
      cases hrest : mapExcept f as with
      | error e => rw [hrest] at h; simp at h
      | ok ys2 =>
        rw [hrest] at h
        cases hx with
        | head => exact ⟨y, hfa⟩
        | tail _ hmem => exact ih hrest x hmem

/-- If the accumulation loop succeeds, every stop had its stoptimes key
and every stoptime entry normalized successfully. -/
theorem collect_departures_ok_forall {stops : List RawStopEntry} {l : List Departure}
    (h : collect_departures stops = Except.ok l) :
    ∀ st ∈ stops, ∃ sts, st.stoptimesWithoutPatterns = some sts ∧
      ∀ d ∈ sts, ∃ dep, single_departure d = Except.ok dep := by
  induction stops generalizing l with
  | nil => intro st hst; cases hst
  | cons st0 rest ih =>
    intro st hst
    simp only [collect_departures] at h
    cases hso : st0.stoptimesWithoutPatterns with
    | none => rw [hso] at h; simp at h
    | some sts0 =>
      rw [hso] at h
      dsimp only at h
      cases hm : mapExcept single_departure sts0 with
      | error e => rw [hm] at h; simp at h
      | ok ds =>
        rw [hm] at h
        dsimp only at h
        cases hr : collect_departures rest with
        | error e => rw [hr] at h; simp at h
        | ok rds =>
          rw [hr] at h
          cases hst with
          | head => exact ⟨sts0, hso, mapExcept_ok_forall hm⟩
          | tail _ hmem => exact ih hr st hmem

/-- A successful request came from an upstream 200 response whose body
parsed successfully. -/
theorem departure_proxy_ok {up : Upstream} {n now : Int} {r : DepartureList}
    (h : departure_proxy up n now = Except.ok r) :
    ∃ body, up = Upstream.response 200 body ∧ parse_json body n now = Except.ok r := by
  cases up with
  | connectorError => simp [departure_proxy, get_departures] at h
  | timeoutError => simp [departure_proxy, get_departures] at h
  | response status body =>
    by_cases hs : status = 200
    · subst hs
      refine ⟨body, rfl, ?_⟩
      cases hp : parse_json body n now with
      | ok r2 =>
        simp [departure_proxy, get_departures, hp] at h
        subst h
        rfl
      | error e =>
        cases e <;> simp [departure_proxy, get_departures, hp] at h
    · simp [departure_proxy, get_departures, hs] at h

/-- Shape of every successful parse: present `data.stops`, nonempty stop
list, fully normalized departures, nonnegative `n`, and a result holding
the first `n` entries of the (identity-)sorted list. -/
theorem parse_json_ok {raw : RawPayload} {n now : Int} {r : DepartureList}
    (h : parse_json raw n now = Except.ok r) :
    ∃ dd stops all, raw.data = some dd ∧ dd.stops = some stops ∧
      stops.length ≠ 0 ∧ collect_departures stops = Except.ok all ∧
      ¬ n < 0 ∧ r = ⟨(pySorted Departure.lt all).take n.toNat, some now⟩ := by
  unfold parse_json at h
  cases hdata : raw.data with
  | none => rw [hdata] at h; simp at h
  | some dd =>
    rw [hdata] at h
    dsimp only at h
    cases hstops : dd.stops with
    | none => rw [hstops] at h; simp at h
    | some stops =>
      rw [hstops] at h
      dsimp only at h
      by_cases hlen : stops.length = 0
      · rw [if_pos hlen] at h; simp at h
      · rw [if_neg hlen] at h
        cases hc : collect_departures stops with
        | error e => rw [hc] at h; simp at h
        | ok all =>
          rw [hc] at h
          dsimp only at h
          unfold pyIslice at h
          by_cases hn : n < 0
          · rw [if_pos hn] at h; simp at h
          · rw [if_neg hn] at h
            dsimp only at h
            injection h with h2
            exact ⟨dd, stops, all, rfl, hstops, hlen, hc, hn, h2.symm⟩

/-! ### The claims -/

/-- Claim C1. The spec says every successful request returns departures
sorted ascending by effective time (estimated if present, else
scheduled). The code violates this: `Departure.__lt__` has no `return`
statement, so it returns `None`, which `sorted` treats as "not less
than", and the list is returned in its original upstream order. On the
payload whose stoptimes arrive with effective times 1000000200 then
1000000120, the successful request returns them in that (descending)
order; moreover `sorted` is the identity on every departure list. The
endpoint docstring promises sorting by the realtime estimate, so this is
a bug in the code, not in the spec. -/
theorem claim_C1_sort_broken :
    (departure_proxy (Upstream.response 200 payload_C1) 5 0).map
        (fun r => r.departures.map Departure.best_time)
      = Except.ok [1000000200, 1000000120]
    ∧ isAscending [1000000200, 1000000120] = false
    ∧ ∀ l : List Departure, pySorted Departure.lt l = l :=
  ⟨rfl, rfl, pySorted_lt_id⟩

/-- Claim C2. Round-trip: for the synthetic payload with one stop
"H3030 Malmin asema" and the two stoptimes
(serviceDay 1000000000, scheduled 100, realtime 120) and
(serviceDay 1000000000, scheduled 50, realtime 200), a request with
n = 5 returns exactly two departures with effective times 1000000120
before 1000000200. -/
theorem claim_C2_roundtrip (now : Int) :
    (departure_proxy (Upstream.response 200 payload_C2) 5 now).map
        (fun r => r.departures.map Departure.best_time)
      = Except.ok [1000000120, 1000000200] := rfl

/-- Claim C3. For every request with n > 0 that succeeds, the returned
departures list has length at most n, and when fewer than n normalized
departures exist, all of them are returned. -/
theorem claim_C3_truncation (up : Upstream) (n now : Int) (r : DepartureList)
    (hn : 0 < n) (h : departure_proxy up n now = Except.ok r) :
    (r.departures.length : Int) ≤ n ∧
    ∀ body dd stops l, up = Upstream.response 200 body → body.data = some dd →
      dd.stops = some stops → collect_departures stops = Except.ok l →
      (l.length : Int) < n → r.departures = l := by
  obtain ⟨body, rfl, hp⟩ := departure_proxy_ok h
  obtain ⟨dd, stops, all, hdata, hstops, hlen, hc, hn0, hr⟩ := parse_json_ok hp
  subst hr
  constructor
  · simp only [pySorted_lt_id, List.length_take]
    omega
  · intro body2 dd2 stops2 l hup hdata2 hstops2 hc2 hlen2
    injection hup with hstat hbody
    subst hbody
    rw [hdata] at hdata2
    injection hdata2 with hdd
    subst hdd
    rw [hstops] at hstops2
    injection hstops2 with hss
    subst hss
    rw [hc] at hc2
    injection hc2 with hl
    subst hl
    simp only [pySorted_lt_id]
    exact List.take_of_length_le (by omega)

/-- Witness for claim C3: on the two-stoptime payload with n = 5, the
result has length 2 ≤ 5 and contains both normalized departures. -/
theorem claim_C3_witness :
    (((⟨[dep_C3a, dep_C3b], some 0⟩ : DepartureList)).departures.length : Int) ≤ 5 ∧
    (⟨[dep_C3a, dep_C3b], some 0⟩ : DepartureList).departures = [dep_C3a, dep_C3b] :=
  ⟨(claim_C3_truncation (Upstream.response 200 payload_C3) 5 0
      ⟨[dep_C3a, dep_C3b], some 0⟩ (by decide) rfl).1,
   (claim_C3_truncation (Upstream.response 200 payload_C3) 5 0
      ⟨[dep_C3a, dep_C3b], some 0⟩ (by decide) rfl).2
     payload_C3 dd_C3 stops_C3 [dep_C3a, dep_C3b] rfl rfl rfl rfl (by decide)⟩

/-- Claim C4. For every upstream 200 response whose `data.stops` list is
empty, the handler fails with HTTP 404 and detail
"No stops matching the query were found."; the `HTTPException` is
re-raised as-is, not downgraded to the normalization failure. -/
theorem claim_C4_empty_stops (body : RawPayload) (dd : RawData) (n now : Int)
    (h1 : body.data = some dd) (h2 : dd.stops = some []) :
    departure_proxy (Upstream.response 200 body) n now
      = Except.error (PyError.httpException 404 "No stops matching the query were found.") := by
  simp [departure_proxy, get_departures, parse_json, h1, h2]

/-- Witness for claim C4: the concrete empty-stops payload yields the
404 error. -/
theorem claim_C4_witness :
    departure_proxy (Upstream.response 200 ⟨some ⟨some []⟩⟩) 5 0
      = Except.error (PyError.httpException 404 "No stops matching the query were found.") :=
  claim_C4_empty_stops ⟨some ⟨some []⟩⟩ ⟨some []⟩ 5 0 rfl rfl

/-- Counterexample to claim C5 as stated: with n = -1 and a well-formed
one-stop payload the handler does not return an empty list; `islice`
raises `ValueError` on a negative stop argument, which the handler
downgrades to HTTP 500 "Received response from HSL API but failed to
parse it.". -/
theorem claim_C5_counterexample :
    departure_proxy (Upstream.response 200 payload_C5) (-1) 0
      = Except.error (PyError.httpException 500
          "Received response from HSL API but failed to parse it.") := rfl

/-- Claim C5 as amended: the handler defaults n to 5 when absent, and a
request with n = 0 that succeeds returns an empty departures list
(negative n instead fails, see the counterexample). -/
theorem claim_C5_n_edge (up : Upstream) (now : Int) :
    departure_proxy_default_n up now = departure_proxy up 5 now ∧
    ∀ r, departure_proxy up 0 now = Except.ok r → r.departures = [] := by
  refine ⟨rfl, ?_⟩
  intro r h
  obtain ⟨body, rfl, hp⟩ := departure_proxy_ok h
  obtain ⟨dd, stops, all, hdata, hstops, hlen, hc, hn0, hr⟩ := parse_json_ok hp
  subst hr
  simp

/-- Witness for claim C5 (amended): on the concrete one-stop payload,
an absent n behaves as n = 5, and n = 0 returns the empty list. -/
theorem claim_C5_witness :
    (departure_proxy_default_n (Upstream.response 200 payload_C5) 0
        = departure_proxy (Upstream.response 200 payload_C5) 5 0) ∧
    (⟨[], some 0⟩ : DepartureList).departures = [] :=
  ⟨(claim_C5_n_edge (Upstream.response 200 payload_C5) 0).1,
   (claim_C5_n_edge (Upstream.response 200 payload_C5) 0).2 ⟨[], some 0⟩ rfl⟩

/-- Claim C6. For every upstream response with a non-200 status code N,
the handler fails with HTTP 502 and a detail string containing the
numeric code N; the response body is irrelevant (universally quantified
and absent from the result). -/
theorem claim_C6_bad_status (status : Int) (body : RawPayload) (n now : Int)
    (h : status ≠ 200) :
    departure_proxy (Upstream.response status body) n now
      = Except.error (PyError.httpException 502
          ("Request to HSL API failed with code " ++ toString status ++ ".")) ∧
    ∃ pre post,
      "Request to HSL API failed with code " ++ toString status ++ "."
        = pre ++ toString status ++ post := by
  refine ⟨?_, "Request to HSL API failed with code ", ".", rfl⟩
  simp [departure_proxy, get_departures, h]

/-- Witness for claim C6: upstream status 503 yields the 502 error whose
detail contains "503". -/
theorem claim_C6_witness :
    (departure_proxy (Upstream.response 503 ⟨none⟩) 5 0
      = Except.error (PyError.httpException 502
          ("Request to HSL API failed with code " ++ toString (503 : Int) ++ "."))) ∧
    ∃ pre post,
      "Request to HSL API failed with code " ++ toString (503 : Int) ++ "."
        = pre ++ toString (503 : Int) ++ post :=
  claim_C6_bad_status 503 ⟨none⟩ 5 0 (by decide)

/-- Counterexample to claim C7 as stated: a timeout is a connection-level
failure of the outbound call, but it raises `asyncio.TimeoutError`, which
the `except aiohttp.ClientConnectorError` clause does not catch; it
propagates out of the handler as an opaque fault, not as HTTP 500 with
detail "Unexpected error when fetching data from HSL.". -/
theorem claim_C7_counterexample :
    departure_proxy Upstream.timeoutError 5 0 = Except.error PyError.timeoutError ∧
    ¬ departure_proxy Upstream.timeoutError 5 0
        = Except.error (PyError.httpException 500
            "Unexpected error when fetching data from HSL.") :=
  ⟨rfl, by simp [departure_proxy, get_departures]⟩

/-- Claim C7 as amended. For every connection-level failure that raises
`aiohttp.ClientConnectorError` (DNS resolution error, refused
connection), the handler fails with HTTP 500 and detail
"Unexpected error when fetching data from HSL."; a timeout, however,
escapes that `except` clause and propagates as an uncaught
`asyncio.TimeoutError`. -/
theorem claim_C7_amended (n now : Int) :
    departure_proxy Upstream.connectorError n now
      = Except.error (PyError.httpException 500
          "Unexpected error when fetching data from HSL.") ∧
    departure_proxy Upstream.timeoutError n now
      = Except.error PyError.timeoutError :=
  ⟨rfl, rfl⟩

/-- Claim C8. For every upstream 200 response containing at least one
stoptime entry that fails to normalize (any missing required field),
the whole request fails with HTTP 500 "Received response from HSL API
but failed to parse it."; no partial departures list is returned. -/
theorem claim_C8_parse_failure (body : RawPayload) (dd : RawData)
    (stops : List RawStopEntry) (st : RawStopEntry) (sts : List RawDeparture)
    (d : RawDeparture) (err : PyError) (n now : Int)
    (h1 : body.data = some dd) (h2 : dd.stops = some stops)
    (h3 : st ∈ stops) (h4 : st.stoptimesWithoutPatterns = some sts)
    (h5 : d ∈ sts) (h6 : single_departure d = Except.error err) :
    departure_proxy (Upstream.response 200 body) n now
      = Except.error (PyError.httpException 500
          "Received response from HSL API but failed to parse it.") := by
  have hne : stops.length ≠ 0 := by
    intro h0
    rw [List.length_eq_zero] at h0
    subst h0
    cases h3
  cases hc : collect_departures stops with
  | ok l =>
    exfalso
    obtain ⟨sts2, hsts2, hall⟩ := collect_departures_ok_forall hc st h3
    rw [h4] at hsts2
    injection hsts2 with hs2
    subst hs2
    obtain ⟨dep, hdep⟩ := hall d h5
    rw [h6] at hdep
    cases hdep
  | error e =>
    have he : e = PyError.keyError := collect_departures_error hc
    subst he
    simp [departure_proxy, get_departures, parse_json, h1, h2, hne, hc]

/-- Witness for claim C8: a payload with one good entry and one entry
lacking `trip.route.shortName` makes the whole request fail with the
parse-failure error. -/
theorem claim_C8_witness :
    departure_proxy (Upstream.response 200 payload_C8) 5 0
      = Except.error (PyError.httpException 500
          "Received response from HSL API but failed to parse it.") :=
  claim_C8_parse_failure payload_C8 ⟨some [⟨some [entry_C8good, entry_C8bad]⟩]⟩
    [⟨some [entry_C8good, entry_C8bad]⟩] ⟨some [entry_C8good, entry_C8bad]⟩
    [entry_C8good, entry_C8bad] entry_C8bad PyError.keyError 5 0
    rfl rfl (by decide) rfl (by decide) rfl

/-- Claim C9. For every well-formed stoptime entry, the normalizer
produces a Departure whose stop is the stop code and name joined by one
space, whose scheduled time is serviceDay + scheduledDeparture and whose
estimated time is serviceDay + realtimeDeparture, both as plain Unix
seconds in UTC with no extra timezone offset. -/
theorem claim_C9_normalization (d : RawDeparture) (stopObj : RawStopObj)
    (nm cd : String) (sd sch rt : Int) (trip : RawTrip) (route : RawRoute)
    (ln : String) (hs : Option String)
    (hstop : d.stop = some stopObj) (hnm : stopObj.name = some nm)
    (hcd : stopObj.code = some cd) (hsd : d.serviceDay = some sd)
    (hsch : d.scheduledDeparture = some sch) (hrt : d.realtimeDeparture = some rt)
    (htrip : d.trip = some trip) (hroute : trip.route = some route)
    (hln : route.shortName = some ln) (hhs : d.headsign = some hs) :
    single_departure d = Except.ok
      { stop := cd ++ " " ++ nm, line := ln, destination := hs
      , scheduled := sd + sch, estimated := some (sd + rt) } := by
  simp [single_departure, get_timestamps, hstop, hnm, hcd, hsd, hsch, hrt,
    htrip, hroute, hln, hhs]

/-- Witness for claim C9: the concrete well-formed entry normalizes to
"H3030 Malmin asema" with the two summed timestamps. -/
theorem claim_C9_witness :
    single_departure entry_C9 = Except.ok
      { stop := "H3030" ++ " " ++ "Malmin asema", line := "550"
      , destination := some "Keskusta"
      , scheduled := 1000000000 + 100, estimated := some (1000000000 + 120) } :=
  claim_C9_normalization entry_C9 ⟨some "Malmin asema", some "H3030"⟩
    "Malmin asema" "H3030" 1000000000 100 120 ⟨some ⟨some "550"⟩⟩ ⟨some "550"⟩
    "550" (some "Keskusta") rfl rfl rfl rfl rfl rfl rfl rfl rfl rfl

/-- Claim C10. Every Departure produced by the normalizer has a present
estimated field, so `best_time` on normalizer output always returns the
estimate and never falls back to the scheduled time. -/
theorem claim_C10_estimated_present (d : RawDeparture) (dep : Departure)
    (h : single_departure d = Except.ok dep) :
    ∃ t, dep.estimated = some t ∧ dep.best_time = t := by
  unfold single_departure at h
  repeat' split at h
  all_goals first
    | (injection h with h2; subst h2; exact ⟨_, rfl, rfl⟩)
    | cases h

/-- Witness for claim C10: the concrete normalized departure has a
present estimate equal to its best time. -/
theorem claim_C10_witness :
    ∃ t, (⟨"H3030 Malmin asema", "550", some "Keskusta", 1000000100,
            some 1000000120⟩ : Departure).estimated = some t ∧
      (⟨"H3030 Malmin asema", "550", some "Keskusta", 1000000100,
            some 1000000120⟩ : Departure).best_time = t :=
  claim_C10_estimated_present entry_C10
    ⟨"H3030 Malmin asema", "550", some "Keskusta", 1000000100, some 1000000120⟩
    rfl

end HSLproxy
